import Mathlib

/-!
Shallow embedding of `flask_stormpath/forms.py`: the WTForms-style form
schemas (Registration, AcceptTermsRegistration, Login, ForgotPassword,
ChangePassword and variants), their per-field validator lists, and the
validation semantics of the three validator kinds the module uses
(`InputRequired`, `Email`, `EqualTo`).

Submitted field values are modelled as `Option String`: `none` is a field
absent from the submitted data, `some s` a field submitted with raw value
`s`.  `InputRequired` passes exactly when the raw value is present and
non-empty (Python truthiness of the raw string).  The configuration mapping
passed to `RegistrationForm.__init__` is modelled as an association list
from key strings to booleans; indexing a missing key is a `KeyError`,
modelled in the `Except String` monad.  The constructor signature in the
source has a missing-comma typo (`config=None **kwargs`); following the
spec, the intended signature `config=None, **kwargs` is embedded.
-/

set_option autoImplicit false

namespace StormpathForms

/-- The validator kinds used by `forms.py`: `InputRequired(message)`,
`Email(message)` and `EqualTo(fieldname, message)`. -/
inductive Validator where
  | inputRequired (message : String)
  | email (message : String)
  | equalTo (other : String) (message : String)
deriving DecidableEq

/-- Python truthiness of a submitted raw value: present and non-empty,
as checked by WTForms `InputRequired` on the field's raw data. -/
def inputPresent : Option String → Bool
  | some s => s != ""
  | none => false

/-- Split a character list on a separator character. -/
def splitOnChar (sep : Char) : List Char → List (List Char)
  | [] => [[]]
  | x :: xs =>
    let rest := splitOnChar sep xs
    if x == sep then [] :: rest
    else
      match rest with
      | r :: rs => (x :: r) :: rs
      | [] => [[x]]

/-- Email-format check used by the `Email` validator: one `@` separating a
non-empty local part from a domain that has at least two non-empty
dot-separated labels. -/
def isEmail (s : String) : Bool :=
  match splitOnChar '@' s.data with
  | [l, d] =>
    !l.isEmpty && !d.isEmpty &&
      (let parts := splitOnChar '.' d
       decide (parts.length ≥ 2) && parts.all (fun p => !p.isEmpty))
  | _ => false

/-- The `Email` validator's check on a submitted value. -/
def checkEmail : Option String → Bool
  | some s => isEmail s
  | none => false

/-- The `EqualTo` validator's check: both values present and equal
byte-for-byte. -/
def checkEqual : Option String → Option String → Bool
  | some a, some b => a == b
  | _, _ => false

/-- Run a field's validator chain on its submitted value, collecting error
messages.  `lookup` resolves another field's submitted value for `EqualTo`.
A failing `InputRequired` raises `StopValidation`, ending the chain with
its message; the other validators report their message and continue. -/
def runValidators (value : Option String) (lookup : String → Option String) :
    List Validator → List String
  | [] => []
  | Validator.inputRequired m :: rest =>
    if inputPresent value then runValidators value lookup rest else [m]
  | Validator.email m :: rest =>
    (if checkEmail value then [] else [m]) ++ runValidators value lookup rest
  | Validator.equalTo f m :: rest =>
    (if checkEqual value (lookup f) then [] else [m]) ++ runValidators value lookup rest

/-- A field passes validation when its validator chain reports no error. -/
def fieldValid (value : Option String) (lookup : String → Option String)
    (vs : List Validator) : Bool :=
  (runValidators value lookup vs).isEmpty

/-! ## Configuration mapping -/

/-- The configuration mapping (`config`) consulted by
`RegistrationForm.__init__`: string keys to boolean flags. -/
abbrev Config := List (String × Bool)

/-- `config[key]`: a missing key raises `KeyError`. -/
def getItem (c : Config) (key : String) : Except String Bool :=
  match c.lookup key with
  | some b => Except.ok b
  | none => Except.error ("KeyError: " ++ key)

/-- `config[enableKey] and config[requireKey]` with Python short-circuit
evaluation: the require key is only read when the enable flag is true. -/
def enabledAndRequired (c : Config) (enableKey requireKey : String) :
    Except String Bool := do
  let e ← getItem c enableKey
  if e then getItem c requireKey else pure false

/-- Python truthiness of the `config` argument: `None` (absent) and the
empty mapping are falsy. -/
def configTruthy : Option Config → Bool
  | none => false
  | some c => !c.isEmpty

/-! ## RegistrationForm -/

/-- The validator lists of a `RegistrationForm` instance, one per field,
in the field order declared in the class body. -/
structure RegistrationForm where
  username_validators : List Validator
  given_name_validators : List Validator
  middle_name_validators : List Validator
  surname_validators : List Validator
  email_validators : List Validator
  password_validators : List Validator
deriving DecidableEq

/-- The class-level field declarations of `RegistrationForm`: `username`,
`given_name`, `middle_name`, `surname` carry no validators; `email` carries
`InputRequired` then `Email`; `password` carries `InputRequired`. -/
def registrationBase : RegistrationForm where
  username_validators := []
  given_name_validators := []
  middle_name_validators := []
  surname_validators := []
  email_validators :=
    [Validator.inputRequired "You must provide an email address.",
     Validator.email "You must provide a valid email address."]
  password_validators :=
    [Validator.inputRequired "You must supply a password."]

/-- `RegistrationForm.__init__(formdata, config=None, **kwargs)`: starting
from the class-level validator lists, when `config` is truthy each of the
four optional fields gets an `InputRequired` validator appended exactly
when that field's `STORMPATH_ENABLE_*` and `STORMPATH_REQUIRE_*` flags are
both true; a missing key read by the branch raises `KeyError`. -/
def RegistrationForm.construct (config : Option Config) :
    Except String RegistrationForm :=
  if configTruthy config then do
    let c := config.getD []
    let u ← enabledAndRequired c "STORMPATH_ENABLE_USERNAME" "STORMPATH_REQUIRE_USERNAME"
    let g ← enabledAndRequired c "STORMPATH_ENABLE_GIVEN_NAME" "STORMPATH_REQUIRE_GIVEN_NAME"
    let m ← enabledAndRequired c "STORMPATH_ENABLE_MIDDLE_NAME" "STORMPATH_REQUIRE_MIDDLE_NAME"
    let s ← enabledAndRequired c "STORMPATH_ENABLE_SURNAME" "STORMPATH_REQUIRE_SURNAME"
    pure { registrationBase with
      username_validators := registrationBase.username_validators ++
        (if u then [Validator.inputRequired "Username is required."] else [])
      given_name_validators := registrationBase.given_name_validators ++
        (if g then [Validator.inputRequired "First name is required."] else [])
      middle_name_validators := registrationBase.middle_name_validators ++
        (if m then [Validator.inputRequired "Middle name is required."] else [])
      surname_validators := registrationBase.surname_validators ++
        (if s then [Validator.inputRequired "Surname is required."] else []) }
  else
    pure registrationBase

/-- Submitted data for a `RegistrationForm`. -/
structure RegData where
  username : Option String := none
  given_name : Option String := none
  middle_name : Option String := none
  surname : Option String := none
  email : Option String := none
  password : Option String := none

/-- Resolve a field name of a `RegistrationForm` to its submitted value. -/
def RegData.lookup (d : RegData) : String → Option String := fun k =>
  if k == "username" then d.username
  else if k == "given_name" then d.given_name
  else if k == "middle_name" then d.middle_name
  else if k == "surname" then d.surname
  else if k == "email" then d.email
  else if k == "password" then d.password
  else none

/-- `form.validate()` for a `RegistrationForm`: every field's validator
chain passes. -/
def RegistrationForm.validate (f : RegistrationForm) (d : RegData) : Bool :=
  fieldValid d.username d.lookup f.username_validators &&
  fieldValid d.given_name d.lookup f.given_name_validators &&
  fieldValid d.middle_name d.lookup f.middle_name_validators &&
  fieldValid d.surname d.lookup f.surname_validators &&
  fieldValid d.email d.lookup f.email_validators &&
  fieldValid d.password d.lookup f.password_validators

/-! ## AcceptTermsRegistrationForm -/

/-- `AcceptTermsRegistrationForm` extends `RegistrationForm` with a boolean
`accept` field carrying an unconditional `InputRequired` validator. -/
structure AcceptTermsRegistrationForm extends RegistrationForm where
  accept_validators : List Validator
deriving DecidableEq

/-- Constructing an `AcceptTermsRegistrationForm` runs the inherited
`RegistrationForm.__init__` (config handling included); the `accept`
field's class-level validator list is not touched by it. -/
def AcceptTermsRegistrationForm.construct (config : Option Config) :
    Except String AcceptTermsRegistrationForm := do
  let r ← RegistrationForm.construct config
  pure { toRegistrationForm := r
         accept_validators :=
           [Validator.inputRequired
             "You have to accept the terms and conditions in order to use the bulletin board."] }

/-- Submitted data for an `AcceptTermsRegistrationForm`: the registration
fields plus the raw value of the `accept` checkbox. -/
structure AcceptRegData extends RegData where
  accept : Option String := none

/-- Raw form encoding of a checkbox: a checked box submits `"y"`, an
unchecked (false) box submits nothing. -/
def submittedBool (b : Bool) : Option String :=
  if b then some "y" else none

/-- `form.validate()` for an `AcceptTermsRegistrationForm`. -/
def AcceptTermsRegistrationForm.validate (f : AcceptTermsRegistrationForm)
    (d : AcceptRegData) : Bool :=
  f.toRegistrationForm.validate d.toRegData &&
  fieldValid d.accept d.toRegData.lookup f.accept_validators

/-- The `AcceptTermsRegistrationForm` instance built with no config. -/
def acceptTermsBase : AcceptTermsRegistrationForm where
  toRegistrationForm := registrationBase
  accept_validators :=
    [Validator.inputRequired
      "You have to accept the terms and conditions in order to use the bulletin board."]

/-! ## LoginForm -/

/-- The validator lists of a `LoginForm`. -/
structure LoginForm where
  login_validators : List Validator
  password_validators : List Validator
deriving DecidableEq

/-- The class-level `LoginForm` declaration. -/
def loginForm : LoginForm where
  login_validators := [Validator.inputRequired "Login identifier required."]
  password_validators := [Validator.inputRequired "Password required."]

/-! ## ForgotPasswordForm -/

/-- The validator list of a `ForgotPasswordForm`: a single `email` field. -/
structure ForgotPasswordForm where
  email_validators : List Validator
deriving DecidableEq

/-- The class-level `ForgotPasswordForm` declaration. -/
def forgotPasswordForm : ForgotPasswordForm where
  email_validators :=
    [Validator.inputRequired "Email address required.",
     Validator.email "You must provide a valid email address."]

/-- No field of a `ForgotPasswordForm` refers to another field. -/
def noLookup : String → Option String := fun _ => none

/-- Errors reported on the `email` field of a `ForgotPasswordForm`. -/
def ForgotPasswordForm.emailErrors (f : ForgotPasswordForm)
    (email : Option String) : List String :=
  runValidators email noLookup f.email_validators

/-- `form.validate()` for a `ForgotPasswordForm`. -/
def ForgotPasswordForm.validate (f : ForgotPasswordForm)
    (email : Option String) : Bool :=
  fieldValid email noLookup f.email_validators

/-! ## ChangePasswordForm -/

/-- The validator lists of a `ChangePasswordForm`. -/
structure ChangePasswordForm where
  password_validators : List Validator
  password_again_validators : List Validator
deriving DecidableEq

/-- The class-level `ChangePasswordForm` declaration: `password` carries
`InputRequired`; `password_again` carries `InputRequired` then
`EqualTo("password")`. -/
def changePasswordForm : ChangePasswordForm where
  password_validators := [Validator.inputRequired "Password required."]
  password_again_validators :=
    [Validator.inputRequired "Please verify the password.",
     Validator.equalTo "password" "Passwords do not match."]

/-- Submitted data for a `ChangePasswordForm`. -/
structure ChangeData where
  password : Option String := none
  password_again : Option String := none

/-- Resolve a field name of a `ChangePasswordForm` to its submitted value. -/
def ChangeData.lookup (d : ChangeData) : String → Option String := fun k =>
  if k == "password" then d.password
  else if k == "password_again" then d.password_again
  else none

/-- Errors reported on the `password` field. -/
def ChangePasswordForm.passwordErrors (f : ChangePasswordForm)
    (d : ChangeData) : List String :=
  runValidators d.password d.lookup f.password_validators

/-- Errors reported on the `password_again` field. -/
def ChangePasswordForm.passwordAgainErrors (f : ChangePasswordForm)
    (d : ChangeData) : List String :=
  runValidators d.password_again d.lookup f.password_again_validators

/-- `form.validate()` for a `ChangePasswordForm`. -/
def ChangePasswordForm.validate (f : ChangePasswordForm) (d : ChangeData) : Bool :=
  fieldValid d.password d.lookup f.password_validators &&
  fieldValid d.password_again d.lookup f.password_again_validators

/-- `ChangePasswordFormHref` adds a hidden `href` field with no
validators. -/
structure ChangePasswordFormHref extends ChangePasswordForm where
  href_validators : List Validator
deriving DecidableEq

/-- The class-level `ChangePasswordFormHref` declaration. -/
def changePasswordFormHref : ChangePasswordFormHref where
  toChangePasswordForm := changePasswordForm
  href_validators := []

/-- `ResendVerificationForm` holds a single hidden `username` field with
no validators. -/
structure ResendVerificationForm where
  username_validators : List Validator
deriving DecidableEq

/-- The class-level `ResendVerificationForm` declaration. -/
def resendVerificationForm : ResendVerificationForm where
  username_validators := []

/-! ## Validator-chain helper lemmas -/

lemma fieldValid_nil (v : Option String) (lk : String → Option String) :
    fieldValid v lk [] = true := rfl

lemma fieldValid_ir (v : Option String) (lk : String → Option String) (m : String) :
    fieldValid v lk [Validator.inputRequired m] = inputPresent v := by
  cases h : inputPresent v <;> simp [fieldValid, runValidators, h]

lemma fieldValid_ir_email (v : Option String) (lk : String → Option String)
    (m₁ m₂ : String) :
    fieldValid v lk [Validator.inputRequired m₁, Validator.email m₂] =
      (inputPresent v && checkEmail v) := by
  cases h : inputPresent v
  · simp [fieldValid, runValidators, h]
  · cases he : checkEmail v <;> simp [fieldValid, runValidators, h, he]

lemma fieldValid_ir_eq (v : Option String) (lk : String → Option String)
    (f m₁ m₂ : String) :
    fieldValid v lk [Validator.inputRequired m₁, Validator.equalTo f m₂] =
      (inputPresent v && checkEqual v (lk f)) := by
  cases h : inputPresent v
  · simp [fieldValid, runValidators, h]
  · cases he : checkEqual v (lk f) <;> simp [fieldValid, runValidators, h, he]

lemma inputPresent_iff (v : Option String) :
    inputPresent v = true ↔ ∃ s, v = some s ∧ s ≠ "" := by
  cases v <;> simp [inputPresent]

lemma validate_registrationBase (d : RegData) :
    registrationBase.validate d =
      (inputPresent d.email && checkEmail d.email && inputPresent d.password) := by
  simp [RegistrationForm.validate, registrationBase, fieldValid_nil,
    fieldValid_ir_email, fieldValid_ir, Bool.and_assoc]

/-- C2: the base Registration schema has email validators exactly
`InputRequired` then `Email`, password validators exactly `InputRequired`,
no validators on any other field, and a submission validates exactly when
the email is present, non-empty and well-formed and the password is
present and non-empty. -/
theorem registration_base_validators_and_validation :
    registrationBase.email_validators =
      [Validator.inputRequired "You must provide an email address.",
       Validator.email "You must provide a valid email address."] ∧
    registrationBase.password_validators =
      [Validator.inputRequired "You must supply a password."] ∧
    registrationBase.username_validators = [] ∧
    registrationBase.given_name_validators = [] ∧
    registrationBase.middle_name_validators = [] ∧
    registrationBase.surname_validators = [] ∧
    ∀ d : RegData, registrationBase.validate d = true ↔
      ((∃ e, d.email = some e ∧ e ≠ "" ∧ isEmail e = true) ∧
       ∃ p, d.password = some p ∧ p ≠ "") := by
  refine ⟨rfl, rfl, rfl, rfl, rfl, rfl, fun d => ?_⟩
  rw [validate_registrationBase]
  cases he : d.email <;> cases hp : d.password <;>
    simp [inputPresent, checkEmail, and_assoc]

/-- Witness for C2 at a valid email and a non-empty password. -/
theorem registration_base_validators_and_validation_witness :
    registrationBase.validate
      ⟨none, none, none, none, some "user@example.com", some "hunter2"⟩ = true :=
  (registration_base_validators_and_validation.2.2.2.2.2.2
    ⟨none, none, none, none, some "user@example.com", some "hunter2"⟩).mpr
    ⟨⟨"user@example.com", rfl, by decide, by decide⟩, "hunter2", rfl, by decide⟩

/-- C3: with no config supplied, construction returns the base schema
unchanged, the four optional fields accept any value (validator chains
empty), and validation enforces only the email and password fields. -/
theorem registration_no_config_base_only :
    RegistrationForm.construct none = Except.ok registrationBase ∧
    (∀ (v : Option String) (lk : String → Option String),
      fieldValid v lk registrationBase.username_validators = true ∧
      fieldValid v lk registrationBase.given_name_validators = true ∧
      fieldValid v lk registrationBase.middle_name_validators = true ∧
      fieldValid v lk registrationBase.surname_validators = true) ∧
    ∀ d : RegData, registrationBase.validate d =
      (fieldValid d.email d.lookup registrationBase.email_validators &&
       fieldValid d.password d.lookup registrationBase.password_validators) := by
  refine ⟨rfl, fun v lk => ⟨rfl, rfl, rfl, rfl⟩, fun d => rfl⟩

/-- C6: the ForgotPassword schema has a single email field validated by
`InputRequired` then `Email`; a malformed address fails with the
email-format message and a well-formed address passes. -/
theorem forgot_password_email_validation :
    forgotPasswordForm.email_validators =
      [Validator.inputRequired "Email address required.",
       Validator.email "You must provide a valid email address."] ∧
    forgotPasswordForm.emailErrors (some "not-an-email") =
      ["You must provide a valid email address."] ∧
    forgotPasswordForm.validate (some "not-an-email") = false ∧
    forgotPasswordForm.validate (some "user@example.com") = true := by
  exact ⟨rfl, by decide, by decide, by decide⟩

/-- C10: a falsy config (absent `None` or a supplied empty mapping) makes
the Registration constructor read no keys and append nothing: the result
is exactly the base schema. -/
theorem registration_falsy_config_no_op :
    RegistrationForm.construct none = Except.ok registrationBase ∧
    RegistrationForm.construct (some []) = Except.ok registrationBase :=
  ⟨rfl, rfl⟩

/-- A configuration mapping carrying all eight Stormpath flags. -/
def fullConfig (eu ru eg rg em rm es rs : Bool) : Config :=
  [("STORMPATH_ENABLE_USERNAME", eu), ("STORMPATH_REQUIRE_USERNAME", ru),
   ("STORMPATH_ENABLE_GIVEN_NAME", eg), ("STORMPATH_REQUIRE_GIVEN_NAME", rg),
   ("STORMPATH_ENABLE_MIDDLE_NAME", em), ("STORMPATH_REQUIRE_MIDDLE_NAME", rm),
   ("STORMPATH_ENABLE_SURNAME", es), ("STORMPATH_REQUIRE_SURNAME", rs)]

/-- The base Registration schema with each optional field's `InputRequired`
validator appended exactly when that field's flag is set. -/
def augmentedForm (u g m s : Bool) : RegistrationForm :=
  { registrationBase with
    username_validators :=
      if u then [Validator.inputRequired "Username is required."] else []
    given_name_validators :=
      if g then [Validator.inputRequired "First name is required."] else []
    middle_name_validators :=
      if m then [Validator.inputRequired "Middle name is required."] else []
    surname_validators :=
      if s then [Validator.inputRequired "Surname is required."] else [] }

/-- C1: for every full configuration, construction succeeds and appends the
field-specific `InputRequired` validator to each optional field exactly when
that field is both enabled and required (each field depending only on its
own two flags); consequently an empty submitted username yields the error
"Username is required." exactly when the username flags are both set, and
passes otherwise. -/
theorem registration_conditional_required_iff :
    ∀ eu ru eg rg em rm es rs : Bool,
      (RegistrationForm.construct (some (fullConfig eu ru eg rg em rm es rs)) =
        Except.ok (augmentedForm (eu && ru) (eg && rg) (em && rm) (es && rs))) ∧
      ∀ d : RegData, d.username = some "" →
        runValidators d.username d.lookup
            (augmentedForm (eu && ru) (eg && rg) (em && rm) (es && rs)).username_validators =
          (if eu && ru then ["Username is required."] else []) ∧
        fieldValid d.username d.lookup
            (augmentedForm (eu && ru) (eg && rg) (em && rm) (es && rs)).username_validators =
          !(eu && ru) := by
  intro eu ru eg rg em rm es rs
  constructor
  · cases eu <;> cases ru <;> cases eg <;> cases rg <;> cases em <;> cases rm <;>
      cases es <;> cases rs <;> rfl
  · intro d h
    rw [h]
    cases hb : (eu && ru) <;>
      simp [augmentedForm, runValidators, fieldValid, inputPresent]

/-- Witness for C1 at username enabled and required, and an empty submitted
username. -/
theorem registration_conditional_required_iff_witness :
    runValidators (some "") (RegData.lookup ⟨some "", none, none, none, none, none⟩)
        (augmentedForm true false false false).username_validators =
      ["Username is required."] :=
  ((registration_conditional_required_iff true true false false false false false
      false).2 ⟨some "", none, none, none, none, none⟩ rfl).1

lemma validate_changePasswordForm (d : ChangeData) :
    changePasswordForm.validate d =
      (inputPresent d.password &&
       (inputPresent d.password_again &&
        checkEqual d.password_again d.password)) := by
  show (fieldValid d.password d.lookup
      [Validator.inputRequired "Password required."] &&
    fieldValid d.password_again d.lookup
      [Validator.inputRequired "Please verify the password.",
       Validator.equalTo "password" "Passwords do not match."]) = _
  rw [fieldValid_ir, fieldValid_ir_eq]
  rfl

/-- C4: the ChangePassword schema's `password` field carries exactly
`InputRequired`, `password_again` exactly `InputRequired` then
`EqualTo("password")`; with both values present, validation succeeds exactly
when they are equal, and on the spec's mismatch example the mismatch
message lands on the `password_again` field. -/
theorem change_password_equality :
    changePasswordForm.password_validators =
      [Validator.inputRequired "Password required."] ∧
    changePasswordForm.password_again_validators =
      [Validator.inputRequired "Please verify the password.",
       Validator.equalTo "password" "Passwords do not match."] ∧
    (∀ p q : String, p ≠ "" → q ≠ "" →
      (changePasswordForm.validate ⟨some p, some q⟩ = true ↔ p = q)) ∧
    changePasswordForm.validate ⟨some "abc123", some "abc123"⟩ = true ∧
    changePasswordForm.validate ⟨some "abc123", some "abc124"⟩ = false ∧
    changePasswordForm.passwordErrors ⟨some "abc123", some "abc124"⟩ = [] ∧
    changePasswordForm.passwordAgainErrors ⟨some "abc123", some "abc124"⟩ =
      ["Passwords do not match."] := by
  refine ⟨rfl, rfl, ?_, by decide, by decide, by decide, by decide⟩
  intro p q hp hq
  rw [validate_changePasswordForm]
  simp [inputPresent, checkEqual, hp, hq]
  exact eq_comm

/-- Witness for C4 at two equal non-empty passwords. -/
theorem change_password_equality_witness :
    changePasswordForm.validate ⟨some "abc123", some "abc123"⟩ = true :=
  (change_password_equality.2.2.1 "abc123" "abc123" (by decide)
    (by decide)).mpr rfl

/-- C5: every constructed AcceptTermsRegistration instance carries the
unconditional `InputRequired` validator on `accept` (whatever the config);
an absent or false `accept` makes any such instance invalid whatever the
other fields hold; and for the config-free instance a checked `accept`
together with a valid email and a present password validates. -/
theorem accept_terms_required :
    (∀ (cfg : Option Config) (f : AcceptTermsRegistrationForm),
      AcceptTermsRegistrationForm.construct cfg = Except.ok f →
        f.accept_validators =
          [Validator.inputRequired
            "You have to accept the terms and conditions in order to use the bulletin board."]) ∧
    (∀ (cfg : Option Config) (f : AcceptTermsRegistrationForm) (d : AcceptRegData),
      AcceptTermsRegistrationForm.construct cfg = Except.ok f →
        d.accept = submittedBool false →
        f.validate d = false) ∧
    AcceptTermsRegistrationForm.construct none = Except.ok acceptTermsBase ∧
    (∀ (e p : String) (u g m s : Option String),
      isEmail e = true → e ≠ "" → p ≠ "" →
        acceptTermsBase.validate
          ⟨⟨u, g, m, s, some e, some p⟩, submittedBool true⟩ = true) := by
  refine ⟨?_, ?_, rfl, ?_⟩
  · intro cfg f h
    cases hr : RegistrationForm.construct cfg with
    | error err =>
      simp [AcceptTermsRegistrationForm.construct, hr, Bind.bind, Except.bind] at h
    | ok r =>
      simp [AcceptTermsRegistrationForm.construct, hr, Bind.bind, Except.bind,
        pure, Except.pure] at h
      rw [← h]
  · intro cfg f d h ha
    cases hr : RegistrationForm.construct cfg with
    | error err =>
      simp [AcceptTermsRegistrationForm.construct, hr, Bind.bind, Except.bind] at h
    | ok r =>
      simp [AcceptTermsRegistrationForm.construct, hr, Bind.bind, Except.bind,
        pure, Except.pure] at h
      rw [← h]
      simp [AcceptTermsRegistrationForm.validate, ha, submittedBool,
        fieldValid_ir, inputPresent]
  · intro e p u g m s he hne hp
    simp [AcceptTermsRegistrationForm.validate, acceptTermsBase,
      validate_registrationBase, inputPresent, checkEmail, he, hne, hp,
      submittedBool, fieldValid_ir]

/-- Witness for C5 at a checked accept box, valid email and non-empty
password on the config-free instance. -/
theorem accept_terms_required_witness :
    acceptTermsBase.validate
      ⟨⟨none, none, none, none, some "user@example.com", some "hunter2"⟩,
        submittedBool true⟩ = true :=
  accept_terms_required.2.2.2 "user@example.com" "hunter2" none none none none
    (by decide) (by decide) (by decide)

/-- The keys of one field's conditional branch that the constructor reads
are all present in the mapping: the enable key and, exactly when its value
is true (short-circuit), the require key. -/
def fieldKeysOk (c : Config) (enableKey requireKey : String) : Bool :=
  match c.lookup enableKey with
  | none => false
  | some true => (c.lookup requireKey).isSome
  | some false => true

/-- Every flag key the Registration constructor reads exists in the
mapping. -/
def readKeysOk (c : Config) : Bool :=
  fieldKeysOk c "STORMPATH_ENABLE_USERNAME" "STORMPATH_REQUIRE_USERNAME" &&
  fieldKeysOk c "STORMPATH_ENABLE_GIVEN_NAME" "STORMPATH_REQUIRE_GIVEN_NAME" &&
  fieldKeysOk c "STORMPATH_ENABLE_MIDDLE_NAME" "STORMPATH_REQUIRE_MIDDLE_NAME" &&
  fieldKeysOk c "STORMPATH_ENABLE_SURNAME" "STORMPATH_REQUIRE_SURNAME"

lemma enabledAndRequired_ok (c : Config) (ek rk : String)
    (h : fieldKeysOk c ek rk = true) :
    ∃ b, enabledAndRequired c ek rk = Except.ok b := by
  cases he : c.lookup ek with
  | none => simp [fieldKeysOk, he] at h
  | some b =>
    cases b with
    | false =>
      exact ⟨false, by simp [enabledAndRequired, getItem, he, Bind.bind,
        Except.bind, pure, Except.pure]⟩
    | true =>
      cases hr : c.lookup rk with
      | none => simp [fieldKeysOk, he, hr] at h
      | some b₂ =>
        exact ⟨b₂, by simp [enabledAndRequired, getItem, he, hr, Bind.bind,
          Except.bind]⟩

lemma enabledAndRequired_err (c : Config) (ek rk : String)
    (h : fieldKeysOk c ek rk = false) :
    ∃ k, c.lookup k = none ∧
      enabledAndRequired c ek rk = Except.error ("KeyError: " ++ k) := by
  cases he : c.lookup ek with
  | none =>
    exact ⟨ek, he, by simp [enabledAndRequired, getItem, he, Bind.bind,
      Except.bind]⟩
  | some b =>
    cases b with
    | false => simp [fieldKeysOk, he] at h
    | true =>
      cases hr : c.lookup rk with
      | none =>
        exact ⟨rk, hr, by simp [enabledAndRequired, getItem, he, hr,
          Bind.bind, Except.bind]⟩
      | some b₂ => simp [fieldKeysOk, he, hr] at h

/-- C7: a supplied truthy config lacking any flag key the constructor
reads (an enable key, or a require key whose enable flag is true) makes
construction propagate a `KeyError` naming a missing key, never a form. -/
theorem registration_malformed_config_error :
    ∀ c : Config, c ≠ [] → readKeysOk c = false →
      ∃ k, c.lookup k = none ∧
        RegistrationForm.construct (some c) =
          Except.error ("KeyError: " ++ k) := by
  intro c hne hbad
  have ht : configTruthy (some c) = true := by
    cases c with
    | nil => exact absurd rfl hne
    | cons x xs => rfl
  cases h₁ : fieldKeysOk c "STORMPATH_ENABLE_USERNAME"
      "STORMPATH_REQUIRE_USERNAME" with
  | false =>
    obtain ⟨k, hk, herr⟩ := enabledAndRequired_err c _ _ h₁
    exact ⟨k, hk, by simp [RegistrationForm.construct, ht, Option.getD,
      herr, Bind.bind, Except.bind]⟩
  | true =>
    obtain ⟨u, hu⟩ := enabledAndRequired_ok c _ _ h₁
    cases h₂ : fieldKeysOk c "STORMPATH_ENABLE_GIVEN_NAME"
        "STORMPATH_REQUIRE_GIVEN_NAME" with
    | false =>
      obtain ⟨k, hk, herr⟩ := enabledAndRequired_err c _ _ h₂
      exact ⟨k, hk, by simp [RegistrationForm.construct, ht, Option.getD,
        hu, herr, Bind.bind, Except.bind]⟩
    | true =>
      obtain ⟨g, hg⟩ := enabledAndRequired_ok c _ _ h₂
      cases h₃ : fieldKeysOk c "STORMPATH_ENABLE_MIDDLE_NAME"
          "STORMPATH_REQUIRE_MIDDLE_NAME" with
      | false =>
        obtain ⟨k, hk, herr⟩ := enabledAndRequired_err c _ _ h₃
        exact ⟨k, hk, by simp [RegistrationForm.construct, ht, Option.getD,
          hu, hg, herr, Bind.bind, Except.bind]⟩
      | true =>
        obtain ⟨m, hm⟩ := enabledAndRequired_ok c _ _ h₃
        cases h₄ : fieldKeysOk c "STORMPATH_ENABLE_SURNAME"
            "STORMPATH_REQUIRE_SURNAME" with
        | false =>
          obtain ⟨k, hk, herr⟩ := enabledAndRequired_err c _ _ h₄
          exact ⟨k, hk, by simp [RegistrationForm.construct, ht, Option.getD,
            hu, hg, hm, herr, Bind.bind, Except.bind]⟩
        | true => simp [readKeysOk, h₁, h₂, h₃, h₄] at hbad

/-- Witness for C7 at a config whose username enable flag is true but whose
require key is absent. -/
theorem registration_malformed_config_error_witness :
    ∃ k, ([("STORMPATH_ENABLE_USERNAME", true)] : Config).lookup k = none ∧
      RegistrationForm.construct (some [("STORMPATH_ENABLE_USERNAME", true)]) =
        Except.error ("KeyError: " ++ k) :=
  registration_malformed_config_error [("STORMPATH_ENABLE_USERNAME", true)]
    (by decide) (by decide)

/-- A supplied config that sets all four enable flags to false and omits
every require key. -/
def enableOnlyConfig : Config :=
  [("STORMPATH_ENABLE_USERNAME", false),
   ("STORMPATH_ENABLE_GIVEN_NAME", false),
   ("STORMPATH_ENABLE_MIDDLE_NAME", false),
   ("STORMPATH_ENABLE_SURNAME", false)]

/-- C9: the `enable and require` check short-circuits, so a false enable
flag means the require key is never read; a config with all enable flags
false and no require keys constructs successfully with no appended
validators. -/
theorem registration_enable_false_short_circuit :
    (∀ c : Config, c.lookup "STORMPATH_ENABLE_USERNAME" = some false →
      enabledAndRequired c "STORMPATH_ENABLE_USERNAME" "STORMPATH_REQUIRE_USERNAME" =
        Except.ok false) ∧
    enableOnlyConfig.lookup "STORMPATH_REQUIRE_USERNAME" = none ∧
    RegistrationForm.construct (some enableOnlyConfig) =
      Except.ok registrationBase := by
  refine ⟨?_, rfl, rfl⟩
  intro c hl
  simp [enabledAndRequired, getItem, hl, Bind.bind, Except.bind, pure,
    Except.pure]

/-- Witness for C9 at the enable-only config. -/
theorem registration_enable_false_short_circuit_witness :
    enabledAndRequired enableOnlyConfig "STORMPATH_ENABLE_USERNAME"
      "STORMPATH_REQUIRE_USERNAME" = Except.ok false :=
  registration_enable_false_short_circuit.1 enableOnlyConfig (by decide)

end StormpathForms
